import Mathlib

/-!
Verification of the customer-support message pipeline:
a shallow embedding of the intent classifier, quick-answer table,
escalation policy, channel formatters and the WhatsApp pipeline
orchestrator, together with theorems settling the specified
properties.  Python machine strings are modelled as Lean strings
(lists of characters); sentiment scores as rationals; the external
capabilities (sentiment model, store, generator, delivery) as an
environment of outcomes that the pipeline consumes.
-/

namespace CRMPipeline

/-- The apostrophe character, used to build literal texts. -/
def aposC : Char := Char.ofNat 39

/-- The apostrophe as a one-character string. -/
def apos : String := String.singleton aposC

/-- Character list of a string; messages are lowered character-wise,
mirroring Python str.lower on ASCII text. -/
abbrev Chars := List Char

/-- Python-style lowering of a message: lower every character. -/
def pyLower (s : String) : Chars := s.data.map Char.toLower

/-- First index at which the needle occurs in the haystack, counting
from the given offset; mirrors Python str.find. -/
def firstOccurAux (needle : Chars) : Chars → Nat → Option Nat
  | hay, i =>
    if needle.isPrefixOf hay then some i
    else
      match hay with
      | [] => none
      | _ :: t => firstOccurAux needle t (i + 1)

/-- First index of the needle as a contiguous run in the haystack. -/
def firstOccur (needle hay : Chars) : Option Nat := firstOccurAux needle hay 0

/-- Substring containment, mirroring the Python membership operator. -/
def containsSub (needle hay : Chars) : Bool := (firstOccur needle hay).isSome

/-- A word character for the regex word-boundary assertion:
alphanumeric or underscore. -/
def isWordChar (c : Char) : Bool := c.isAlphanum || c = '_'

/-- Whole-word occurrence of the needle in the haystack: some
occurrence whose two ends sit at word boundaries.  Mirrors searching
for the keyword wrapped in regex word-boundary assertions. -/
def wordAtBoundary (needle hay : Chars) : Bool :=
  (List.range (hay.length + 1)).any fun i =>
    needle.isPrefixOf (hay.drop i)
    && (decide (i = 0) || !isWordChar (hay.getD (i - 1) ' '))
    && (decide (hay.length ≤ i + needle.length)
        || !isWordChar (hay.getD (i + needle.length) ' '))

/-! ## Escalation policy (skills/escalation_decision.py) -/

/-- Hard escalation keywords, in source list order. -/
def HARD_ESCALATION_KEYWORDS : List String :=
  ["lawyer", "legal", "sue", "attorney", "lawsuit",
   "refund", "cancellation", "cancel", "chargeback",
   "gdpr", "data breach", "compliance"]

/-- Keywords by which a customer asks for a person, in source order. -/
def HUMAN_REQUEST_KEYWORDS : List String :=
  ["human", "agent", "real person", "manager", "representative"]

/-- The source constant 0.2, as a rational. -/
def score02 : ℚ := mkRat 2 10

/-- The source constant 0.3, as a rational. -/
def score03 : ℚ := mkRat 3 10

/-- The source constant 0.5, as a rational. -/
def score05 : ℚ := mkRat 5 10

/-- Result of the escalation policy. -/
structure EscalationDecision where
  should_escalate : Bool
  reason : String
  urgency : String
deriving DecidableEq

/-- Embedding of decide_escalation: hard keywords by substring in list
order, then human-request keywords as whole words, then the two
sentiment thresholds, else no escalation. -/
def decide_escalation (message : String) (sentiment_score : ℚ) : EscalationDecision :=
  let ml := pyLower message
  match HARD_ESCALATION_KEYWORDS.find? (fun kw => containsSub kw.data ml) with
  | some kw => ⟨true, "keyword_detected:" ++ kw, "immediate"⟩
  | none =>
    if HUMAN_REQUEST_KEYWORDS.any (fun kw => wordAtBoundary kw.data ml) then
      ⟨true, "customer_requested_human", "high"⟩
    else if sentiment_score < score02 then ⟨true, "hostile_sentiment", "immediate"⟩
    else if sentiment_score < score03 then ⟨true, "negative_sentiment", "high"⟩
    else ⟨false, "", "normal"⟩

/-- Whether the lowered message contains some hard escalation keyword. -/
def containsHardKeyword (message : String) : Bool :=
  (HARD_ESCALATION_KEYWORDS.find? (fun kw => containsSub kw.data (pyLower message))).isSome

/-! ### Reference escalation policy, stated from the specification -/

/-- Modelled from the spec: the hard keyword list of legal and
financial terms given in the escalation policy section. -/
def specHardKeywords : List String :=
  ["lawyer", "legal", "sue", "attorney", "lawsuit",
   "refund", "cancellation", "cancel", "chargeback",
   "gdpr", "data breach", "compliance"]

/-- Modelled from the spec: the human-request keyword list. -/
def specHumanKeywords : List String :=
  ["human", "agent", "real person", "manager", "representative"]

/-- Spec rule 1: first hard keyword contained as a substring, in list
order, escalates immediately with the keyword named in the reason. -/
def specRuleHard (ml : Chars) : Option EscalationDecision :=
  (specHardKeywords.find? (fun kw => containsSub kw.data ml)).map
    (fun kw => ⟨true, "keyword_detected:" ++ kw, "immediate"⟩)

/-- Spec rule 2: a whole-word human-request keyword escalates with
high urgency. -/
def specRuleHuman (ml : Chars) : Option EscalationDecision :=
  if specHumanKeywords.any (fun kw => wordAtBoundary kw.data ml) then
    some ⟨true, "customer_requested_human", "high"⟩
  else none

/-- Spec rules 3 and 4: sentiment thresholds, immediate below 0.2 and
high from 0.2 up to but excluding 0.3. -/
def specRuleSentiment (score : ℚ) : Option EscalationDecision :=
  if score < score02 then some ⟨true, "hostile_sentiment", "immediate"⟩
  else if score02 ≤ score ∧ score < score03 then some ⟨true, "negative_sentiment", "high"⟩
  else none

/-- The four-rule ordered reference function of the specification:
first matching rule wins, otherwise no escalation with normal urgency. -/
def referenceDecision (message : String) (score : ℚ) : EscalationDecision :=
  let ml := pyLower message
  match specRuleHard ml with
  | some d => d
  | none =>
    match specRuleHuman ml with
    | some d => d
    | none =>
      match specRuleSentiment score with
      | some d => d
      | none => ⟨false, "", "normal"⟩

/-! ## Channel formatters (agent/formatters.py) -/

/-- Supported communication channels. -/
inductive Channel
  | email
  | web_form
  | whatsapp
deriving DecidableEq

/-- Everything before the last space of the list, or the whole list if
it has no space; mirrors taking the first component of a Python
right-split on a single space. -/
def beforeLastSpace (l : Chars) : Chars :=
  match firstOccur [' '] l.reverse with
  | none => l
  | some i => l.take (l.length - 1 - i)

/-- Embedding of format_for_channel: email wraps with greeting and
signature plus the ticket reference, whatsapp truncates to 300
characters cutting back to a word boundary with an ellipsis, web form
appends a fixed help footer. -/
def format_for_channel (content : String) (channel : Channel) (ticket_id : String := "") : String :=
  match channel with
  | Channel.email =>
    "Dear Customer,\n\nThank you for reaching out to Qirat Saeed AI Support.\n\n"
      ++ content ++ "\n\nBest regards,\nQirat Saeed AI Support Team\n---\nTicket: " ++ ticket_id
  | Channel.whatsapp =>
    let truncated : Chars := content.data.take 300
    if 300 < content.data.length then
      ⟨beforeLastSpace truncated ++ ['.', '.', '.']⟩
    else ⟨truncated⟩
  | Channel.web_form =>
    content ++ "\n\n---\nNeed more help? Reply or contact support."

/-- Whitespace tokenizer, accumulator form: runs of non-whitespace
characters become tokens, whitespace separates; mirrors Python
str.split with no argument. -/
def tokensAux : Chars → Chars → List Chars
  | [], acc => if acc.isEmpty then [] else [acc.reverse]
  | c :: rest, acc =>
    if c.isWhitespace then
      if acc.isEmpty then tokensAux rest [] else acc.reverse :: tokensAux rest []
    else tokensAux rest (c :: acc)

/-- Whitespace tokens of a character list. -/
def tokensC (l : Chars) : List Chars := tokensAux l []

/-- Whitespace-separated words of a string, as Python str.split(). -/
def pySplit (s : String) : List String := (tokensC s.data).map fun l => ⟨l⟩

/-- Embedding of count_words. -/
def count_words (text : String) : Nat := (pySplit text).length

/-- Joining words with single spaces, as the Python space join. -/
def joinSpace : List String → String
  | [] => ""
  | [w] => w
  | w :: ws => w ++ " " ++ joinSpace ws

/-- Embedding of truncate_to_words: keep the text when it has at most
max_words words, else join the first max_words words with spaces and
append the ellipsis marker. -/
def truncate_to_words (text : String) (max_words : Nat) : String :=
  let words := pySplit text
  if words.length ≤ max_words then text
  else joinSpace (words.take max_words) ++ "..."
/-! ### Tokenization lemmas -/

/-- Characters of the ellipsis marker. -/
def dotsC : Chars := ['.', '.', '.']

/-- Character-level space join. -/
def joinSpaceC : List Chars → Chars
  | [] => []
  | [w] => w
  | w :: ws => w ++ ' ' :: joinSpaceC ws

/-- Gluing the ellipsis marker onto the last word of a word list; an
empty list becomes the bare marker. -/
def glueDots : List String → List String
  | [] => ["..."]
  | [w] => [w ++ "..."]
  | w :: ws => w :: glueDots ws

/-- Character-level form of glueDots. -/
def glueDotsC : List Chars → List Chars
  | [] => [dotsC]
  | [w] => [w ++ dotsC]
  | w :: ws => w :: glueDotsC ws

/-! ## Quick answers and intent classification (skills/quick_answer.py) -/

/-- One quick-answer table entry: keyword list, canned response,
category and escalation flag. -/
structure QAEntry where
  keywords : List String
  response : String
  category : String
  escalate : Bool

/-- The quick-answer table, in source insertion order, with the exact
keyword lists, responses, categories and escalation flags. -/
def QUICK_ANSWERS : List (String × QAEntry) :=
  [("reset_password",
    { keywords := ["reset password", "forgot password", "can" ++ apos ++ "t login",
        "cannot login", "locked out", "password reset", "forgot my password",
        "forget password"],
      response := "Hi! To reset your password:\n\n1. Go to the login page\n2. Click \"Forgot Password\"\n3. Enter your email\n4. Check your inbox for reset link\n5. Click the link and create a new password\n\nThe reset link expires in 24 hours. Need more help?",
      category := "account", escalate := false }),
   ("account_setup",
    { keywords := ["get started", "setup account", "create account", "new user",
        "how to start", "sign up", "register", "new account"],
      response := "Welcome! Here" ++ apos ++ "s how to get started:\n\n1. Visit our signup page\n2. Create account with work email\n3. Set up your workspace\n4. Invite team members\n5. Create your first project\n\nNeed a walkthrough of features?",
      category := "onboarding", escalate := false }),
   ("pricing",
    { keywords := ["price", "cost", "pricing", "how much", "upgrade", "plan",
        "subscription", "billing", "prices", "costs", "pricing plan"],
      response := "We offer 3 plans:\n\n- Free: Up to 5 team members\n- Pro: Up to 50 members, advanced features\n- Enterprise: Unlimited members, priority support\n\n14-day free trial. No credit card needed.\n\nWant me to connect you with sales for custom pricing?",
      category := "sales", escalate := true }),
   ("refund",
    { keywords := ["refund", "money back", "cancel subscription", "billing issue",
        "chargeback", "unsubscrib", "cancel", "subscription cancel", "unsubscribe",
        "cancel my subscription"],
      response := "I understand you have a billing concern.\n\nLet me connect you with our billing specialist who can review your account and assist with refunds.\n\nA billing agent will contact you within 2 hours. Is there a specific issue I should note?",
      category := "billing", escalate := true }),
   ("api_key",
    { keywords := ["api key", "api token", "api access", "integration", "webhook",
        "api docs", "rest api", "api documentation", "developer api"],
      response := "To find your API key:\n\n1. Log in to dashboard\n2. Go to Settings → API\n3. Click \"Generate New Key\"\n4. Store it securely (can" ++ apos ++ "t view again!)\n\nAPI docs available at our developer portal.\n\nNeed help with specific integration?",
      category := "technical", escalate := false }),
   ("downtime",
    { keywords := ["down", "not working", "error", "server down",
        "can" ++ apos ++ "t access", "outage", "broken", "bug", "service down",
        "service is down", "errors", "getting errors", "bug in"],
      response := "Sorry you" ++ apos ++ "re experiencing issues!\n\nCurrent system status: All systems operational\n\nTry these:\n1. Clear browser cache\n2. Try incognito mode\n3. Check internet connection\n4. Try different browser\n\nStill not working? I" ++ apos ++ "ll escalate to tech support.",
      category := "technical", escalate := false }),
   ("feature_request",
    { keywords := ["feature", "suggestion", "would be nice", "can you add",
        "request", "idea", "improve"],
      response := "Great idea! I" ++ apos ++ "d love to pass this to our product team.\n\nCan you share:\n- What problem this solves?\n- How you" ++ apos ++ "d use it?\n- Any examples?\n\nYour feedback helps us improve!",
      category := "feedback", escalate := false }),
   ("contact_support",
    { keywords := ["talk to human", "speak to agent", "real person",
        "customer service", "support team", "help", "human support",
        "talk to a human", "human agent"],
      response := "I" ++ apos ++ "ll connect you with a human specialist right away.\n\nThey" ++ apos ++ "ll review your conversation and contact you shortly.\n\nIs there a specific issue I should note for them?",
      category := "support", escalate := true }),
   ("shipping",
    { keywords := ["shipping", "delivery", "when will", "track order", "shipment",
        "where is my order"],
      response := "To check your order status:\n\n1. Log in to your account\n2. Go to Orders\n3. Click on order number\n4. View tracking info\n\nStandard: 3-5 business days\nExpress: 1-2 business days\n\nNeed help tracking?",
      category := "orders", escalate := false }),
   ("integration",
    { keywords := ["integrate", "integration", "connect", "slack", "zapier",
        "webhook", "teams", "github", "webhook configuration", "slack integration"],
      response := "We support these integrations:\n\n- Slack/Teams: Notifications\n- Zapier: 1000+ apps\n- GitHub/GitLab: Dev workflows\n- API: Custom integrations\n\nWhich integration? I can guide you.",
      category := "technical", escalate := false }),
   ("export_data",
    { keywords := ["export", "download data", "backup", "csv", "json",
        "data export", "download csv", "csv export"],
      response := "To export your data:\n\n1. Go to Settings\n2. Click \"Data & Privacy\"\n3. Select \"Export Data\"\n4. Choose format (CSV/JSON)\n5. Download will start\n\nLarge exports may take a few minutes.\n\nNeed help with specific data?",
      category := "account", escalate := false }),
   ("team_invite",
    { keywords := ["invite", "add member", "add user", "team member",
        "collaborator", "invite team"],
      response := "To invite team members:\n\n1. Go to Settings → Team\n2. Click \"Invite Members\"\n3. Enter email addresses\n4. Assign roles (Admin/Member/Viewer)\n5. Send invitations\n\nThey" ++ apos ++ "ll receive an email with signup link.\n\nNeed help with permissions?",
      category := "account", escalate := false }),
   ("two_factor",
    { keywords := ["2fa", "two factor", "authentication", "security", "enable 2fa"],
      response := "To enable 2FA:\n\n1. Go to Settings → Security\n2. Click \"Enable Two-Factor Auth\"\n3. Scan QR code with authenticator app\n4. Enter the 6-digit code\n5. Save backup codes\n\nSupported apps: Google Authenticator, Authy, Microsoft Authenticator.\n\nNeed help setting up?",
      category := "security", escalate := false }),
   ("trial",
    { keywords := ["trial", "free trial", "trial period", "test", "try before"],
      response := "We offer a 14-day free trial of our Pro plan:\n\n- No credit card required\n- All Pro features included\n- Up to 50 team members\n- Cancel anytime\n\nWant me to help you start a trial?",
      category := "sales", escalate := false }),
   ("demo",
    { keywords := ["demo", "demo request", "show me", "walkthrough", "tutorial"],
      response := "We offer live demos:\n\n- Group onboarding (Pro plans)\n- Dedicated training (Enterprise)\n- Self-service docs (all plans)\n\nWhat would you like to see? I can guide you to the right resources.",
      category := "sales", escalate := false })]

/-- Alternatives of the greeting pattern, matched at the start of the
lowered message. -/
def greetingStarts : List String :=
  ["hi", "hello", "hey", "good morning", "good afternoon", "good evening", "yo", "sup"]

/-- Alternatives of the thanks pattern, matched anywhere. -/
def thanksSubs : List String := ["thank", "thanks", "thx", "appreciate"]

/-- Alternatives of the yes pattern, matched against the whole message. -/
def yesWords : List String := ["yes", "yeah", "yep", "sure", "ok", "okay", "yup"]

/-- Alternatives of the no pattern, matched against the whole message. -/
def noWords : List String :=
  ["no", "nope", "nah", "don" ++ apos ++ "t", "doesn" ++ apos ++ "t", "not"]

/-- The greeting pattern: anchored at the start, case-insensitive. -/
def greetingMatch (ml : Chars) : Bool :=
  greetingStarts.any fun w => w.data.isPrefixOf ml

/-- The thanks pattern: an unanchored case-insensitive search. -/
def thanksMatch (ml : Chars) : Bool :=
  thanksSubs.any fun w => containsSub w.data ml

/-- The yes pattern: anchored at both ends, so whole-string equality
with one alternative. -/
def yesMatch (ml : Chars) : Bool := yesWords.any fun w => w.data == ml

/-- The no pattern: anchored at both ends. -/
def noMatch (ml : Chars) : Bool := noWords.any fun w => w.data == ml

/-- The structural patterns, scanned in table order. -/
def structuralIntent (ml : Chars) : Option String :=
  if greetingMatch ml then some "greeting"
  else if thanksMatch ml then some "thanks"
  else if yesMatch ml then some "yes"
  else if noMatch ml then some "no"
  else none

/-- Short keywords exempt from the minimum-length gate. -/
def SHORT_OK : List String := ["down", "csv", "2fa"]

/-- One keyword matching step of classify_intent: the keyword occurs
as a substring, passes the minimum-length gate (longer than three
characters or explicitly exempt), and its first occurrence has
non-alphanumeric characters or string edges on both sides. -/
def kwMatch (kw : String) (ml : Chars) : Bool :=
  match firstOccur kw.data ml with
  | none => false
  | some idx =>
    (decide (3 < kw.length) || SHORT_OK.contains kw)
    && (decide (idx = 0) || !(ml.getD (idx - 1) ' ').isAlphanum)
    && (decide (ml.length ≤ idx + kw.length)
        || !(ml.getD (idx + kw.length) ' ').isAlphanum)

/-- The fixed priority order in which intents are scanned. -/
def priority_order : List String :=
  ["reset_password", "account_setup", "refund", "pricing",
   "integration", "api_key",
   "downtime", "feature_request", "contact_support", "shipping",
   "export_data", "team_invite", "two_factor", "trial", "demo"]

/-- Whether some keyword of the named intent matches the lowered
message. -/
def intentMatches (name : String) (ml : Chars) : Bool :=
  match QUICK_ANSWERS.lookup name with
  | none => false
  | some e => e.keywords.any fun kw => kwMatch kw ml

/-- The keyword scan: first intent in priority order with a matching
keyword. -/
def keywordScan (ml : Chars) : Option String :=
  priority_order.findSome? fun name =>
    if intentMatches name ml then some name else none

/-- Embedding of classify_intent: structural patterns first, then the
priority-ordered keyword scan. -/
def classify_intent (message : String) : Option String :=
  let ml := pyLower message
  match structuralIntent ml with
  | some s => some s
  | none => keywordScan ml

/-- A matched quick answer as returned by get_quick_answer. -/
structure QuickAnswerHit where
  intent : String
  response : String
  category : String
  escalate : Bool
deriving DecidableEq

/-- Embedding of get_quick_answer: classify, drop intents outside the
table and the structural intents, return the entry with its
escalation flag defaulted to false only where the table omits it. -/
def get_quick_answer (message : String) : Option QuickAnswerHit :=
  match classify_intent message with
  | none => none
  | some name =>
    match QUICK_ANSWERS.lookup name with
    | none => none
    | some e =>
      if name ∈ (["greeting", "thanks", "yes", "no"] : List String) then none
      else some ⟨name, e.response, e.category, e.escalate⟩

/-- The fixed greeting courtesy text. -/
def greetingResponse : String :=
  "Hello! 👋 I" ++ apos ++ "m your AI support assistant.\n\nWhat can I help you with today?"

/-- The fixed thanks courtesy text. -/
def thanksResponse : String :=
  "You" ++ apos ++ "re welcome! 😊\n\nIs there anything else I can help you with?"

/-- Embedding of handle_greeting: the greeting pattern searched
case-insensitively on the raw message. -/
def handle_greeting (message : String) : Option String :=
  if greetingMatch (pyLower message) then some greetingResponse else none

/-- Embedding of handle_thanks. -/
def handle_thanks (message : String) : Option String :=
  if thanksMatch (pyLower message) then some thanksResponse else none
/-! ## Sentiment analysis (skills/sentiment_analysis.py) and the
external capability environment -/

/-- Sentiment analysis result. -/
structure SentimentResult where
  score : ℚ
  label : String
  confidence : ℚ
  should_escalate : Bool
deriving DecidableEq

/-- Outcomes of the external capabilities consumed by one pipeline
invocation: the sentiment model call together with its JSON parse, the
context-building store reads, the text generation call, the
ticket-escalation store update and the response store-and-send.  An
error value models a raised exception. -/
structure Env where
  scorerOutcome : Except String (ℚ × String × ℚ)
  contextOutcome : Except String String
  generatorOutcome : Except String String
  escalateOutcome : Except String Unit
  sendOutcome : Except String Unit

/-- Embedding of analyze_sentiment: a successful model call and parse
yields the parsed score, label and confidence with the escalation flag
set below 0.3; any failure is caught and the neutral default returned. -/
def analyze_sentiment (env : Env) (message : String) : SentimentResult :=
  match env.scorerOutcome with
  | Except.ok (s, l, c) => ⟨s, l, c, decide (s < score03)⟩
  | Except.error _ => ⟨score05, "neutral", 0, false⟩

/-! ## The WhatsApp pipeline orchestrator
(agent/whatsapp_agent_runner.py) -/

/-- The source tag of a pipeline result, per the specified output
contract. -/
inductive RSource
  | quick_answer
  | greeting
  | thanks
  | generated
  | escalation_notice
  | error_fallback
deriving DecidableEq

/-- The single output contract of the pipeline. -/
structure PipelineResult where
  response_text : String
  escalated : Bool
  source : RSource
deriving DecidableEq

/-- Observable ticket and side-effect state threaded through one
invocation: the stored ticket status and resolution notes, the
outgoing messages stored and handed to delivery, and whether the
sentiment scorer was invoked. -/
structure TicketSt where
  status : String
  resolution_notes : Option String
  sent : List String
  scorerCalled : Bool
deriving DecidableEq

/-- Ticket state on entry: an open ticket, nothing sent. -/
def st0 : TicketSt := ⟨"open", none, [], false⟩

/-- Embedding of _escalate_ticket: one store update setting the status
to escalated and recording the reason in the resolution notes; raises
when the store fails. -/
def escalateTicket (env : Env) (reason : String) (st : TicketSt) :
    Except String TicketSt :=
  match env.escalateOutcome with
  | Except.ok _ =>
    Except.ok { st with status := "escalated",
                        resolution_notes := some ("Escalation reason: " ++ reason) }
  | Except.error e => Except.error e

/-- Embedding of _send_response: stores the outgoing message, sets the
ticket status to resolved and hands the text to delivery (delivery
failures are caught inside the source and do not raise); raises when
the store fails. -/
def sendResponse (env : Env) (content : String) (st : TicketSt) :
    Except String TicketSt :=
  match env.sendOutcome with
  | Except.ok _ =>
    Except.ok { st with status := "resolved", sent := st.sent ++ [content] }
  | Except.error e => Except.error e

/-- The apology text returned on generation failure and by the
top-level error handler. -/
def apologyText : String :=
  "I apologize, but I" ++ apos
    ++ "m having trouble. Let me connect you to a human agent."

/-- The fixed human-handoff escalation notice of the WhatsApp runner,
identical for every channel argument. -/
def escalationNotice : String :=
  "I" ++ apos ++ "m connecting you to a human specialist. They" ++ apos
    ++ "ll review your case and respond promptly."

/-- Whitespace stripped from both ends, as Python str.strip(). -/
def pyStrip (s : String) : String :=
  ⟨((s.data.dropWhile Char.isWhitespace).reverse.dropWhile Char.isWhitespace).reverse⟩

/-- Embedding of _generate_response: on success the model text is
stripped and truncated to 50 words; a generation failure is caught and
replaced by the apology text. -/
def generateResponse (env : Env) : String :=
  match env.generatorOutcome with
  | Except.ok t => truncate_to_words (pyStrip t) 50
  | Except.error _ => apologyText

/-- The exception raised when the store insert receives the un-awaited
handle_greeting coroutine instead of a string. -/
def coroutineContentError : String :=
  "message content is an un-awaited coroutine, not a string"

/-- The body of process_message inside its try block.  Step 1 tries a
quick answer (properly awaited in the source).  Step 2 then calls the
async handle_greeting WITHOUT await: the resulting coroutine object is
truthy for every message, so this branch fires whenever no quick
answer matched, and _send_response receives the coroutine as the
message content.  Inside _send_response the store lookup can raise on
its own; otherwise the message insert rejects the non-string content
parameter and raises.  The thanks, sentiment-scoring, escalation
decision, context building, generation and send steps of the source
(its steps 3 to 8) sit below this branch and are therefore
unreachable from process_message.  The pair carries the result or the
raised exception together with the ticket state at that point, since
store writes persist across a raise. -/
def runBody (env : Env) (message : String) :
    Except String PipelineResult × TicketSt :=
  match get_quick_answer message with
  | some qa =>
    match (if qa.escalate then
             escalateTicket env ("quick_answer_" ++ qa.intent) st0
           else Except.ok st0) with
    | Except.error e => (Except.error e, st0)
    | Except.ok st1 =>
      match sendResponse env qa.response st1 with
      | Except.error e => (Except.error e, st1)
      | Except.ok st2 => (Except.ok ⟨qa.response, qa.escalate, RSource.quick_answer⟩, st2)
  | none =>
    match env.sendOutcome with
    | Except.error e => (Except.error e, st0)
    | Except.ok _ => (Except.error coroutineContentError, st0)

/-- Embedding of WhatsAppAgentRunner.process_message: the body runs
inside a try block; any exception raised there is handled by
escalating the ticket with reason agent_error and returning the
apology — but that handler itself performs a store update which may
raise, in which case the exception leaves process_message.  The
channel argument does not affect control flow in the source. -/
def process_message (env : Env) (message : String) (channel : String) :
    Except String PipelineResult × TicketSt :=
  match runBody env message with
  | (Except.ok r, st) => (Except.ok r, st)
  | (Except.error exc, st) =>
    match escalateTicket env "agent_error" st with
    | Except.ok st2 =>
      (Except.ok ⟨apologyText, true, RSource.error_fallback⟩, st2)
    | Except.error e =>
      have _ := exc
      (Except.error e, st)

/-- Decidable equality of exception-carrying results. -/
instance instDecEqExcept {e a : Type} [DecidableEq e] [DecidableEq a] :
    DecidableEq (Except e a) := fun x y =>
  match x, y with
  | Except.ok u, Except.ok v =>
    if h : u = v then Decidable.isTrue (by rw [h])
    else Decidable.isFalse (by intro hc; injection hc; contradiction)
  | Except.error u, Except.error v =>
    if h : u = v then Decidable.isTrue (by rw [h])
    else Decidable.isFalse (by intro hc; injection hc; contradiction)
  | Except.ok _, Except.error _ => Decidable.isFalse (by intro hc; exact Except.noConfusion hc)
  | Except.error _, Except.ok _ => Decidable.isFalse (by intro hc; exact Except.noConfusion hc)

/-- An environment in which every capability succeeds, the sentiment
model returning a positive score. -/
def okEnv : Env :=
  { scorerOutcome := Except.ok (mkRat 9 10, "positive", 1),
    contextOutcome := Except.ok "context",
    generatorOutcome := Except.ok "Here is a helpful generated answer.",
    escalateOutcome := Except.ok (),
    sendOutcome := Except.ok () }
/-! ## Helper environments and lemmas for the claim theorems -/

/-- The source tag of a returned pipeline result, none when an
exception escaped. -/
def resultSourceOf : Except String PipelineResult → Option RSource
  | Except.ok r => some r.source
  | Except.error _ => none

/-- An environment whose sentiment model call fails. -/
def errEnv : Env :=
  { okEnv with scorerOutcome := Except.error "model down" }

/-- An environment in which every store update fails. -/
def downEnv : Env :=
  { okEnv with escalateOutcome := Except.error "store down",
               sendOutcome := Except.error "store down" }

/-- An environment in which the response store-and-send fails but the
escalation update succeeds. -/
def sendErrEnv : Env :=
  { okEnv with sendOutcome := Except.error "send failed" }

/-- A 400-character content consisting of a single 400-letter word. -/
def aRun400 : String := ⟨List.replicate 400 'a'⟩

/-- A 400-character content of forty space-separated words. -/
def spaced400 : String := joinSpace ("abcdefghij" :: List.replicate 39 "abcdefghi")

lemma tokensAux_word (w : Chars) (hw : ∀ c ∈ w, c.isWhitespace = false) :
    ∀ (l acc : Chars), tokensAux (w ++ l) acc = tokensAux l (w.reverse ++ acc) := by
  induction w with
  | nil => intro l acc; simp
  | cons c w ih =>
    intro l acc
    have hc : c.isWhitespace = false := hw c (by simp)
    have hw' : ∀ d ∈ w, d.isWhitespace = false := fun d hd => hw d (by simp [hd])
    simp only [List.cons_append, tokensAux, hc, Bool.false_eq_true, if_false, List.append_eq]
    rw [ih hw' l (c :: acc)]
    simp

lemma tokensC_word_append (w l : Chars) (hne : w ≠ [])
    (hw : ∀ c ∈ w, c.isWhitespace = false) :
    tokensC (w ++ ' ' :: l) = w :: tokensC l := by
  unfold tokensC
  rw [tokensAux_word w hw (' ' :: l) []]
  have hsp : (' ' : Char).isWhitespace = true := by decide
  have hacc : (w.reverse ++ ([] : Chars)).isEmpty = false := by
    simp [List.isEmpty_iff, hne]
  simp only [tokensAux, hsp, if_true, hacc, Bool.false_eq_true, if_false]
  simp

lemma tokensC_single (w : Chars) (hne : w ≠ [])
    (hw : ∀ c ∈ w, c.isWhitespace = false) :
    tokensC w = [w] := by
  unfold tokensC
  have h := tokensAux_word w hw [] []
  rw [List.append_nil] at h
  rw [h]
  have hacc : (w.reverse ++ ([] : Chars)).isEmpty = false := by
    simp [List.isEmpty_iff, hne]
  simp only [tokensAux, hacc, Bool.false_eq_true, if_false]
  simp

lemma tokensC_joinSpaceC_dots (ws : List Chars)
    (h1 : ∀ w ∈ ws, w ≠ [])
    (h2 : ∀ w ∈ ws, ∀ c ∈ w, c.isWhitespace = false) :
    tokensC (joinSpaceC ws ++ dotsC) = glueDotsC ws := by
  induction ws with
  | nil =>
    simp only [joinSpaceC, List.nil_append, glueDotsC]
    decide
  | cons w ws ih =>
    cases ws with
    | nil =>
      simp only [joinSpaceC, glueDotsC]
      apply tokensC_single
      · intro h
        exact absurd (List.append_eq_nil.mp h).2 (by decide)
      · intro c hc
        rcases List.mem_append.mp hc with h | h
        · exact h2 w (by simp) c h
        · fin_cases h <;> decide
    | cons x xs =>
      have hw : w ≠ [] := h1 w (by simp)
      have hwc : ∀ c ∈ w, c.isWhitespace = false := h2 w (by simp)
      have step : joinSpaceC (w :: x :: xs) ++ dotsC
          = w ++ ' ' :: (joinSpaceC (x :: xs) ++ dotsC) := by
        simp [joinSpaceC]
      rw [step, tokensC_word_append w _ hw hwc]
      rw [ih (fun v hv => h1 v (by simp [hv])) (fun v hv => h2 v (by simp [hv]))]
      rfl

lemma tokensAux_sound (l : Chars) :
    ∀ acc, (∀ c ∈ acc, c.isWhitespace = false) →
      ∀ w ∈ tokensAux l acc, w ≠ [] ∧ ∀ c ∈ w, c.isWhitespace = false := by
  induction l with
  | nil =>
    intro acc hacc w hw
    by_cases he : acc.isEmpty
    · simp [tokensAux, he] at hw
    · simp [tokensAux, he] at hw
      subst hw
      refine ⟨?_, ?_⟩
      · intro hrev
        apply he
        have : acc = [] := by simpa using congrArg List.reverse hrev
        simp [this]
      · intro c hc
        exact hacc c (List.mem_reverse.mp hc)
  | cons c rest ih =>
    intro acc hacc w hw
    by_cases hc : c.isWhitespace = true
    · by_cases he : acc.isEmpty
      · simp [tokensAux, hc, he] at hw
        exact ih [] (by simp) w hw
      · simp [tokensAux, hc, he] at hw
        rcases hw with h | h
        · subst h
          refine ⟨?_, ?_⟩
          · intro hrev
            apply he
            have : acc = [] := by simpa using congrArg List.reverse hrev
            simp [this]
          · intro d hd
            exact hacc d (List.mem_reverse.mp hd)
        · exact ih [] (by simp) w h
    · simp [tokensAux, hc] at hw
      refine ih (c :: acc) ?_ w hw
      intro d hd
      rcases List.mem_cons.mp hd with h | h
      · subst h; simpa using hc
      · exact hacc d h

/-- Every whitespace token is a nonempty run of non-whitespace
characters. -/
lemma tokensC_sound (l : Chars) :
    ∀ w ∈ tokensC l, w ≠ [] ∧ ∀ c ∈ w, c.isWhitespace = false :=
  tokensAux_sound l [] (by simp)

lemma data_append (a b : String) : (a ++ b).data = a.data ++ b.data := by
  cases a; cases b; rfl

lemma joinSpace_data (ss : List String) :
    (joinSpace ss).data = joinSpaceC (ss.map String.data) := by
  induction ss with
  | nil => rfl
  | cons w ws ih =>
    cases ws with
    | nil => rfl
    | cons x xs =>
      show (w ++ " " ++ joinSpace (x :: xs)).data
          = w.data ++ ' ' :: joinSpaceC ((x :: xs).map String.data)
      rw [data_append, data_append, ih]
      simp

lemma glueDotsC_map (l : List Chars) :
    (glueDotsC l).map (fun cs => (⟨cs⟩ : String))
      = glueDots (l.map fun cs => (⟨cs⟩ : String)) := by
  induction l with
  | nil => rfl
  | cons w ws ih =>
    cases ws with
    | nil => rfl
    | cons x xs =>
      show (⟨w⟩ : String) :: (glueDotsC (x :: xs)).map (fun cs => (⟨cs⟩ : String))
          = (⟨w⟩ : String) :: glueDots ((x :: xs).map fun cs => (⟨cs⟩ : String))
      rw [ih]

lemma glueDots_length (l : List String) : (glueDots l).length = max 1 l.length := by
  induction l with
  | nil => rfl
  | cons w ws ih =>
    cases ws with
    | nil => rfl
    | cons x xs =>
      have hstep : glueDots (w :: x :: xs) = w :: glueDots (x :: xs) := rfl
      rw [hstep]
      simp only [List.length_cons, ih]
      omega

/-- In the truncating case, the words of the truncated text are the
first max_words words of the original, with the ellipsis marker glued
onto the last one. -/
lemma pySplit_truncate_of_lt (text : String) (N : Nat)
    (h : N < (pySplit text).length) :
    pySplit (truncate_to_words text N) = glueDots ((pySplit text).take N) := by
  have hnot : ¬ (pySplit text).length ≤ N := by omega
  unfold truncate_to_words
  simp only [hnot, if_false]
  have htake : (pySplit text).take N
      = ((tokensC text.data).take N).map (fun cs => (⟨cs⟩ : String)) := by
    unfold pySplit
    rw [List.map_take]
  have hdata : ((pySplit text).take N).map String.data = (tokensC text.data).take N := by
    rw [htake, List.map_map]
    have hid : (String.data ∘ fun cs => ({ data := cs } : String)) = id := rfl
    rw [hid, List.map_id]
  have hjoin : (joinSpace ((pySplit text).take N) ++ "...").data
      = joinSpaceC ((tokensC text.data).take N) ++ dotsC := by
    rw [data_append, joinSpace_data, hdata]
    rfl
  have hres : pySplit (joinSpace ((pySplit text).take N) ++ "...")
      = (tokensC ((joinSpace ((pySplit text).take N) ++ "...").data)).map
          (fun l => (⟨l⟩ : String)) := rfl
  rw [hres, hjoin]
  rw [tokensC_joinSpaceC_dots ((tokensC text.data).take N)
    (fun w hw => (tokensC_sound text.data w (List.take_subset N (tokensC text.data) hw)).1)
    (fun w hw => (tokensC_sound text.data w (List.take_subset N (tokensC text.data) hw)).2)]
  rw [glueDotsC_map, ← htake]

/-- The truncated text always has at most max_words + 1 words. -/
lemma truncate_count_le_succ (text : String) (N : Nat) :
    (pySplit (truncate_to_words text N)).length ≤ N + 1 := by
  by_cases h : (pySplit text).length ≤ N
  · unfold truncate_to_words
    simp only [h, if_true]
    omega
  · rw [pySplit_truncate_of_lt text N (by omega)]
    rw [glueDots_length]
    simp only [List.length_take]
    omega

/-- For a positive cap, the truncated text has at most max_words
words: the ellipsis marker is glued onto the final word rather than
standing alone. -/
lemma truncate_count_le (text : String) (N : Nat) (hN : 1 ≤ N) :
    (pySplit (truncate_to_words text N)).length ≤ N := by
  by_cases h : (pySplit text).length ≤ N
  · unfold truncate_to_words
    simp only [h, if_true]
  · rw [pySplit_truncate_of_lt text N (by omega)]
    rw [glueDots_length]
    simp only [List.length_take]
    omega

lemma findSome_exists {α β : Type} (l : List α) (f : α → Option β) (b : β)
    (h : l.findSome? f = some b) : ∃ a ∈ l, f a = some b := by
  induction l with
  | nil => simp [List.findSome?] at h
  | cons x xs ih =>
    rw [List.findSome?] at h
    cases hfx : f x with
    | some v =>
      rw [hfx] at h
      exact ⟨x, by simp, by rw [hfx]; exact h⟩
    | none =>
      rw [hfx] at h
      obtain ⟨a, ha, hfa⟩ := ih h
      exact ⟨a, by simp [ha], hfa⟩

/-- Claim C4: decide_escalation(text, score) equals the four-rule
ordered reference function of the specification: first matching hard
keyword (substring, list order) escalates immediately naming the
keyword; else a whole-word human-request keyword escalates with high
urgency; else score below 0.2 escalates immediately as hostile; else
score below 0.3 escalates with high urgency as negative; else no
escalation.  Being a plain function of its two arguments, it is pure
and deterministic. -/
theorem C4_decide_escalation_matches_reference (message : String) (score : ℚ) :
    decide_escalation message score = referenceDecision message score := by
  unfold decide_escalation referenceDecision specRuleHard specRuleHuman specRuleSentiment
  have h1 : specHardKeywords = HARD_ESCALATION_KEYWORDS := rfl
  have h2 : specHumanKeywords = HUMAN_REQUEST_KEYWORDS := rfl
  rw [h1, h2]
  cases hfind : HARD_ESCALATION_KEYWORDS.find? (fun kw => containsSub kw.data (pyLower message)) with
  | some kw =>
    simp only [hfind, Option.map_some]
    rfl
  | none =>
    simp only [hfind, Option.map_none]
    cases hany : HUMAN_REQUEST_KEYWORDS.any (fun kw => wordAtBoundary kw.data (pyLower message)) with
    | true =>
      simp only [hany, if_true]
      rfl
    | false =>
      simp only [hany, Bool.false_eq_true, if_false]
      by_cases hlt : score < score02
      · simp only [hlt, if_true]
        rfl
      · by_cases hlt2 : score < score03
        · simp only [hlt, hlt2, if_true, if_false, le_of_not_lt hlt, true_and, and_true]
          rfl
        · simp only [hlt, hlt2, if_false, le_of_not_lt hlt, true_and, false_and, and_false]
          rfl

/-! ## Claim theorems -/

/-- Claim C10: classify_intent never matches on a quick-answer keyword
of length at most three characters unless it is one of down, csv, 2fa:
every intent produced by the keyword scan is witnessed by a keyword
that passed the minimum-length gate; and the message bug yields no
intent although bug is a listed keyword of the downtime intent. -/
theorem C10_short_keywords_gated :
    (classify_intent "bug" = none
      ∧ "bug" ∈ ((QUICK_ANSWERS.lookup "downtime").map QAEntry.keywords).getD [])
    ∧ ∀ (message name : String),
        keywordScan (pyLower message) = some name →
        ∃ e, QUICK_ANSWERS.lookup name = some e ∧
          ∃ kw ∈ e.keywords, kwMatch kw (pyLower message) = true ∧
            (3 < kw.length ∨ kw ∈ SHORT_OK) := by
  constructor
  · exact ⟨by decide, by decide⟩
  · intro message name h
    unfold keywordScan at h
    obtain ⟨nm, hmem, hf⟩ := findSome_exists _ _ _ h
    by_cases hm : intentMatches nm (pyLower message) = true
    · rw [if_pos hm] at hf
      injection hf with hf
      subst hf
      unfold intentMatches at hm
      cases hq : QUICK_ANSWERS.lookup nm with
      | none => rw [hq] at hm; simp at hm
      | some e =>
        rw [hq] at hm
        refine ⟨e, rfl, ?_⟩
        obtain ⟨kw, hkw, hmatch⟩ := List.any_eq_true.mp hm
        refine ⟨kw, hkw, hmatch, ?_⟩
        unfold kwMatch at hmatch
        cases hocc : firstOccur kw.data (pyLower message) with
        | none => rw [hocc] at hmatch; simp at hmatch
        | some idx =>
          rw [hocc] at hmatch
          have hgate := ((Bool.and_eq_true _ _).mp (((Bool.and_eq_true _ _).mp hmatch).1)).1
          rcases (Bool.or_eq_true _ _).mp hgate with hg | hg
          · exact Or.inl (of_decide_eq_true hg)
          · exact Or.inr (by simpa using hg)
    · rw [if_neg hm] at hf
      exact absurd hf (by simp)

/-- Witness for C10 at a concrete message matching the api_key intent
through the keyword api key. -/
theorem C10_short_keywords_gated_witness :
    ∃ e, QUICK_ANSWERS.lookup "api_key" = some e ∧
      ∃ kw ∈ e.keywords, kwMatch kw (pyLower "where is my api key") = true ∧
        (3 < kw.length ∨ kw ∈ SHORT_OK) :=
  C10_short_keywords_gated.2 "where is my api key" "api_key" (by decide)

/-- Claim C9: analyze_sentiment never propagates a fault: a failing
model call or parse yields the neutral default with score 0.5, label
neutral, confidence 0 and no escalation; a successful one yields the
parsed values with should_escalate exactly when the score is below
0.3.  Totality of the embedding reflects the catch-all handler in the
source. -/
theorem C9_sentiment_total_with_neutral_default (env : Env) (message : String) :
    (∀ e, env.scorerOutcome = Except.error e →
       analyze_sentiment env message = ⟨score05, "neutral", 0, false⟩)
    ∧ (∀ s l c, env.scorerOutcome = Except.ok (s, l, c) →
         analyze_sentiment env message = ⟨s, l, c, decide (s < score03)⟩) := by
  constructor
  · intro e he
    unfold analyze_sentiment
    rw [he]
  · intro a l c hc
    unfold analyze_sentiment
    rw [hc]

/-- Witness for C9 on a failing and a succeeding scorer. -/
theorem C9_sentiment_total_witness :
    analyze_sentiment errEnv "msg" = ⟨score05, "neutral", 0, false⟩
    ∧ analyze_sentiment okEnv "msg"
        = ⟨mkRat 9 10, "positive", 1, decide (mkRat 9 10 < score03)⟩ :=
  ⟨(C9_sentiment_total_with_neutral_default errEnv "msg").1 "model down" rfl,
   (C9_sentiment_total_with_neutral_default okEnv "msg").2 (mkRat 9 10) "positive" 1 rfl⟩

/-- Counterexample to claim C7 as stated: truncating alpha beta gamma
to two words yields alpha beta... whose token sequence, because the
ellipsis is glued onto the second word, is not a prefix of the
original token sequence. -/
theorem C7_counterexample :
    (pySplit (truncate_to_words "alpha beta gamma" 2)).length ≤ 2 + 1
    ∧ ¬ ((pySplit (truncate_to_words "alpha beta gamma" 2)).isPrefixOf
          (pySplit "alpha beta gamma") = true) := by
  exact ⟨by decide, by decide⟩

/-- Claim C7 as amended: the output of truncate_to_words has at most
N + 1 whitespace tokens; a text of at most N words is returned
unchanged; otherwise the output tokens are the first N input tokens
with the ellipsis marker glued onto the last of them. -/
theorem C7_truncate_words_law (text : String) (N : Nat) :
    (pySplit (truncate_to_words text N)).length ≤ N + 1
    ∧ ((pySplit text).length ≤ N → truncate_to_words text N = text)
    ∧ (N < (pySplit text).length →
        pySplit (truncate_to_words text N) = glueDots ((pySplit text).take N)) := by
  refine ⟨truncate_count_le_succ text N, ?_, ?_⟩
  · intro h
    unfold truncate_to_words
    simp [h]
  · intro h
    exact pySplit_truncate_of_lt text N h

/-- Witness for C7 on a concrete four-word text with cap three. -/
theorem C7_truncate_words_law_witness :
    pySplit (truncate_to_words "one two three four" 3)
      = glueDots ((pySplit "one two three four").take 3) :=
  (C7_truncate_words_law "one two three four" 3).2.2 (by decide)

/-- Claim C2, showing the code bug: on the message I want a refund the
quick answer for the refund intent matches with its escalate flag set
and the escalation reason quick_answer_refund is recorded, but the
send step of the same invocation then overwrites the ticket status to
resolved, so after process_message the stored status is not escalated. -/
theorem C2_quick_answer_escalation_overwritten :
    (get_quick_answer "I want a refund").map QuickAnswerHit.intent = some "refund"
    ∧ (get_quick_answer "I want a refund").map QuickAnswerHit.escalate = some true
    ∧ (process_message okEnv "I want a refund" "whatsapp").2.resolution_notes
        = some ("Escalation reason: " ++ "quick_answer_" ++ "refund")
    ∧ (process_message okEnv "I want a refund" "whatsapp").2.status = "resolved" := by
  exact ⟨by decide, by decide, by decide, by decide⟩

/-- Claim C5, shown to be a code bug: the classifier does classify hi
as a greeting and the sentiment scorer is never invoked, but
process_message does not return the fixed greeting text: because
handle_greeting is called without await, the send step receives a
truthy coroutine as content and raises, so the error handler escalates
the ticket with reason agent_error and the apology is returned with
source error_fallback. -/
theorem C5_greeting_never_sent :
    classify_intent "hi" = some "greeting"
    ∧ process_message okEnv "hi" "whatsapp"
        = (Except.ok ⟨apologyText, true, RSource.error_fallback⟩,
           ⟨"escalated", some ("Escalation reason: " ++ "agent_error"), [], false⟩)
    ∧ (process_message okEnv "hi" "whatsapp").2.scorerCalled = false := by
  exact ⟨by decide, by decide, by decide⟩

/-- Claim C8: when no structural pattern fires and none of the intents
scanned before integration (reset_password, account_setup, refund,
pricing) matches, a message matching a keyword of both the integration
and the api_key intents classifies as integration, because the
priority order scans integration first. -/
theorem C8_integration_before_api_key (message : String)
    (hg : greetingMatch (pyLower message) = false)
    (ht : thanksMatch (pyLower message) = false)
    (hy : yesMatch (pyLower message) = false)
    (hn : noMatch (pyLower message) = false)
    (h1 : intentMatches "reset_password" (pyLower message) = false)
    (h2 : intentMatches "account_setup" (pyLower message) = false)
    (h3 : intentMatches "refund" (pyLower message) = false)
    (h4 : intentMatches "pricing" (pyLower message) = false)
    (hint : intentMatches "integration" (pyLower message) = true)
    (hapi : intentMatches "api_key" (pyLower message) = true) :
    classify_intent message = some "integration" := by
  have _ := hapi
  unfold classify_intent structuralIntent
  simp only [hg, ht, hy, hn, Bool.false_eq_true, if_false]
  unfold keywordScan priority_order
  simp [List.findSome?, h1, h2, h3, h4, hint]

/-- Witness for C8 on a message matching both intents. -/
theorem C8_integration_before_api_key_witness :
    classify_intent "need slack integration and api key" = some "integration" :=
  C8_integration_before_api_key "need slack integration and api key"
    (by decide) (by decide) (by decide) (by decide) (by decide)
    (by decide) (by decide) (by decide) (by decide) (by decide)

/-- Counterexample to claim C1 as stated: the message I want a refund
contains the hard escalation keyword refund, yet process_message
returns the canned quick answer, with source quick_answer rather than
escalation_notice, because the quick-answer lookup runs before the
escalation policy. -/
theorem C1_counterexample :
    containsHardKeyword "I want a refund" = true
    ∧ resultSourceOf (process_message okEnv "I want a refund" "whatsapp").1
        = some RSource.quick_answer
    ∧ RSource.quick_answer ≠ RSource.escalation_notice := by
  exact ⟨by decide, by decide, by decide⟩

/-- Claim C1 as amended: a message containing a hard escalation
keyword that matches no quick-answer intent never receives the
escalation notice: the un-awaited greeting handler makes the send step
raise before the escalation policy can run, so, when the escalation
store update succeeds, the ticket is marked escalated — with reason
agent_error rather than the detected keyword — and the apology is
returned with source error_fallback, for every sentiment score; the
scorer is never invoked.  Messages that do match a quick answer take
that path instead, as the counterexample shows. -/
theorem C1_hard_keyword_agent_error (env : Env) (message channel : String)
    (hqa : get_quick_answer message = none)
    (hkw : containsHardKeyword message = true)
    (hesc : env.escalateOutcome = Except.ok ()) :
    (process_message env message channel).1
      = Except.ok ⟨apologyText, true, RSource.error_fallback⟩
    ∧ (process_message env message channel).2.status = "escalated"
    ∧ (process_message env message channel).2.resolution_notes
        = some ("Escalation reason: " ++ "agent_error")
    ∧ (process_message env message channel).2.scorerCalled = false
    ∧ resultSourceOf (process_message env message channel).1
        ≠ some RSource.escalation_notice := by
  have _ := hkw
  have hproc : process_message env message channel
      = (Except.ok ⟨apologyText, true, RSource.error_fallback⟩,
         ⟨"escalated", some ("Escalation reason: " ++ "agent_error"), [], false⟩) := by
    unfold process_message runBody escalateTicket
    rw [hqa]
    cases hs : env.sendOutcome with
    | ok u =>
      rw [hesc]
      rfl
    | error e =>
      rw [hesc]
      rfl
  refine ⟨?_, ?_, ?_, ?_, ?_⟩
  · rw [hproc]
  · rw [hproc]
  · rw [hproc]
  · rw [hproc]
  · rw [hproc]
    decide

/-- Witness for C1 on the message i need a lawyer, which matches no
quick answer. -/
theorem C1_hard_keyword_agent_error_witness :
    (process_message okEnv "i need a lawyer" "whatsapp").1
      = Except.ok ⟨apologyText, true, RSource.error_fallback⟩
    ∧ (process_message okEnv "i need a lawyer" "whatsapp").2.status = "escalated"
    ∧ (process_message okEnv "i need a lawyer" "whatsapp").2.resolution_notes
        = some ("Escalation reason: " ++ "agent_error")
    ∧ (process_message okEnv "i need a lawyer" "whatsapp").2.scorerCalled = false
    ∧ resultSourceOf (process_message okEnv "i need a lawyer" "whatsapp").1
        ≠ some RSource.escalation_notice :=
  C1_hard_keyword_agent_error okEnv "i need a lawyer" "whatsapp"
    (by decide) (by decide) rfl

/-- Counterexample to claim C3 as stated: when the store is down, a
greeting message raises in the send step and the error handler raises
again in its own escalation update, so the exception escapes
process_message. -/
theorem C3_counterexample :
    (process_message downEnv "hi" "whatsapp").1 = Except.error "store down" := by
  decide

/-- Claim C3 as amended: provided the escalation store update of the
error handler succeeds, no exception escapes process_message, and any
exception raised in the body yields the error_fallback result with
escalated true and the ticket escalated with reason agent_error. -/
theorem C3_error_contained_given_escalation_store (env : Env)
    (message channel : String)
    (hesc : env.escalateOutcome = Except.ok ()) :
    (∃ r st, process_message env message channel = (Except.ok r, st))
    ∧ ∀ exc, (runBody env message).1 = Except.error exc →
        process_message env message channel
          = (Except.ok ⟨apologyText, true, RSource.error_fallback⟩,
             ⟨"escalated", some ("Escalation reason: " ++ "agent_error"),
              (runBody env message).2.sent, (runBody env message).2.scorerCalled⟩) := by
  constructor
  · rcases hb : runBody env message with ⟨res, st⟩
    cases res with
    | ok r =>
      exact ⟨r, st, by unfold process_message; rw [hb]⟩
    | error e =>
      refine ⟨⟨apologyText, true, RSource.error_fallback⟩,
        ⟨"escalated", some ("Escalation reason: " ++ "agent_error"),
         st.sent, st.scorerCalled⟩, ?_⟩
      unfold process_message escalateTicket
      rw [hb, hesc]
  · intro exc hexc
    rcases hb : runBody env message with ⟨res, st⟩
    rw [hb] at hexc
    cases res with
    | ok r => exact absurd hexc (by simp)
    | error e =>
      unfold process_message escalateTicket
      rw [hb, hesc]

/-- Witness for C3: with a failing send but a working escalation
store, the greeting message yields the error fallback and no escaping
exception. -/
theorem C3_error_contained_witness :
    (∃ r st, process_message sendErrEnv "hi" "whatsapp" = (Except.ok r, st))
    ∧ process_message sendErrEnv "hi" "whatsapp"
        = (Except.ok ⟨apologyText, true, RSource.error_fallback⟩,
           ⟨"escalated", some ("Escalation reason: " ++ "agent_error"),
            (runBody sendErrEnv "hi").2.sent, (runBody sendErrEnv "hi").2.scorerCalled⟩) :=
  ⟨(C3_error_contained_given_escalation_store sendErrEnv "hi" "whatsapp" rfl).1,
   (C3_error_contained_given_escalation_store sendErrEnv "hi" "whatsapp" rfl).2
     "send failed" (by decide)⟩

lemma beforeLastSpace_length_le (l : Chars) :
    (beforeLastSpace l).length ≤ l.length := by
  unfold beforeLastSpace
  cases h : firstOccur [' '] l.reverse with
  | none => exact Nat.le_refl _
  | some i =>
    simp only [List.length_take]
    omega

set_option maxRecDepth 40000 in
/-- Counterexample to claim C6 as stated: formatting a 400-character
single-word content for WhatsApp yields the first 300 characters of
the word with the ellipsis appended directly — 303 characters, over
the claimed 300-character bound, and a mid-word cut rather than a word
boundary. -/
theorem C6_counterexample :
    aRun400.length = 400
    ∧ format_for_channel aRun400 Channel.whatsapp ""
        = (⟨List.replicate 300 'a'⟩ : String) ++ "..."
    ∧ ¬ (format_for_channel aRun400 Channel.whatsapp "").length ≤ 300 := by
  exact ⟨by decide, by decide, by decide⟩

/-- Claim C6 as amended: the WhatsApp branch of format_for_channel
returns content of at most 300 characters unchanged; longer content is
cut to its first 300 characters, backed off to the text before the
last space of that prefix — the whole prefix, a mid-word cut, when it
has no space — with the three-character ellipsis appended, so the
output can reach 303 characters.  The WhatsApp runner generation-path
word truncation is unreachable in the source because the un-awaited
greeting handler raises first for every non-quick-answer message. -/
theorem C6_format_whatsapp_truncation (content tid : String) :
    (content.length ≤ 300 → format_for_channel content Channel.whatsapp tid = content)
    ∧ (300 < content.length →
        format_for_channel content Channel.whatsapp tid
          = ⟨beforeLastSpace (content.data.take 300) ++ dotsC⟩
        ∧ (format_for_channel content Channel.whatsapp tid).length ≤ 303) := by
  have hlen : content.data.length = content.length := rfl
  constructor
  · intro h
    have hnot : ¬ 300 < content.data.length := by omega
    show (if 300 < content.data.length then
            (⟨beforeLastSpace (content.data.take 300) ++ ['.', '.', '.']⟩ : String)
          else ⟨content.data.take 300⟩) = content
    rw [if_neg hnot, List.take_of_length_le (by omega)]
  · intro h
    have hyes : 300 < content.data.length := by omega
    constructor
    · show (if 300 < content.data.length then
              (⟨beforeLastSpace (content.data.take 300) ++ ['.', '.', '.']⟩ : String)
            else ⟨content.data.take 300⟩)
          = ⟨beforeLastSpace (content.data.take 300) ++ dotsC⟩
      rw [if_pos hyes]
      rfl
    · show (if 300 < content.data.length then
              (⟨beforeLastSpace (content.data.take 300) ++ ['.', '.', '.']⟩ : String)
            else ⟨content.data.take 300⟩).length ≤ 303
      rw [if_pos hyes]
      show (beforeLastSpace (content.data.take 300) ++ ['.', '.', '.']).length ≤ 303
      rw [List.length_append]
      have h1 := beforeLastSpace_length_le (content.data.take 300)
      have h2 : (content.data.take 300).length ≤ 300 := by
        simp [List.length_take]
      simp only [List.length_cons, List.length_nil]
      omega

set_option maxRecDepth 40000 in
/-- Witness for C6: a short content is returned unchanged, and a
400-character forty-word content is cut back to the last word boundary
inside its 300-character prefix with the ellipsis appended. -/
theorem C6_format_whatsapp_truncation_witness :
    format_for_channel "short reply" Channel.whatsapp "" = "short reply"
    ∧ (format_for_channel spaced400 Channel.whatsapp ""
         = ⟨beforeLastSpace (spaced400.data.take 300) ++ dotsC⟩
       ∧ (format_for_channel spaced400 Channel.whatsapp "").length ≤ 303) :=
  ⟨(C6_format_whatsapp_truncation "short reply" "").1 (by decide),
   (C6_format_whatsapp_truncation spaced400 "").2 (by decide)⟩

end CRMPipeline
